import Mathlib

/-!
Shallow embedding of the HDF5-analyzer façade of the eFlow repository.

The façade lives in `src/src/lib/utils.ts` (the functions `analyzeHdf5Info`,
`analyzeHdf5Structure`, `listHdf5Datasets`, `extractHecRasData`,
`readHdf5DatasetSample`), and its CLI front-end in
`src/src-tauri/hdf5_analyzer.rs.bak` (`main`).  The TypeScript façade is, in
the committed source, a set of mock implementations (each body carries a
`TODO: Replace with Rust invoke when ready` comment); the embedding below
translates those bodies as written.  JavaScript numbers are modelled as exact
rationals (every literal appearing in the source is exactly representable and
no rounding arithmetic is performed on them), the impure call
`new Date().toISOString()` is modelled by an explicit `now : String`
parameter, and a TypeScript `async` function that can either resolve with a
value or reject with a thrown error is modelled as `Except String α`.
-/

/-- Result type of `getFileStats` (utils.ts:908): `{ size: number }`. -/
structure FileStats where
  size : ℚ
  deriving DecidableEq, Repr

/-- `getFileStats` (utils.ts:908-911): a mock always returning a 10 MB size,
never consulting the file system. -/
def getFileStats (_filePath : String) : FileStats :=
  { size := 1024 * 1024 * 10 }

/-- `RustFileInfo` (utils.ts:305-314). -/
structure RustFileInfo where
  name : String
  path : String
  size_mb : ℚ
  modified : String
  accessible : Bool
  groups_count : ℚ
  datasets_count : ℚ
  error : Option String
  deriving DecidableEq, Repr

/-- `RustTreeNode` (utils.ts:316-324); recursive, hence an inductive type. -/
inductive RustTreeNode where
  | mk (name : String) (path : String) (node_type : String)
       (children : List RustTreeNode) (attributes : List (String × String))
       (shape : Option (List ℚ)) (dtype : Option String)
  deriving Repr

/-- Field accessor for `RustTreeNode.name`. -/
def RustTreeNode.name : RustTreeNode → String
  | .mk n _ _ _ _ _ _ => n

/-- Field accessor for `RustTreeNode.path`. -/
def RustTreeNode.path : RustTreeNode → String
  | .mk _ p _ _ _ _ _ => p

/-- Field accessor for `RustTreeNode.node_type`. -/
def RustTreeNode.node_type : RustTreeNode → String
  | .mk _ _ t _ _ _ _ => t

/-- Field accessor for `RustTreeNode.children`. -/
def RustTreeNode.children : RustTreeNode → List RustTreeNode
  | .mk _ _ _ c _ _ _ => c

/-- `RustFileStructure` (utils.ts:326-332). -/
structure RustFileStructure where
  file_path : String
  root : RustTreeNode
  total_groups : ℚ
  total_datasets : ℚ
  error : Option String

/-- `RustHecRasData` (utils.ts:334-340); the string-keyed record types are
modelled as association lists in key order. -/
structure RustHecRasData where
  file : String
  geometry_data : List (String × List ℚ)
  results_data : List (String × List ℚ)
  metadata : List (String × String)
  extraction_summary : List (String × ℚ)

/-- JavaScript `filePath.split("/").pop() || filePath.split("\\").pop() ||
"unknown"` from utils.ts:750-751.  `split` on a non-empty separator never
yields an empty array, so `pop()` is the last fragment; `||` falls through on
the empty string. -/
def fileNameOf (filePath : String) : String :=
  let a := (filePath.splitOn "/").getLastD ""
  if a ≠ "" then a
  else
    let b := (filePath.splitOn "\\").getLastD ""
    if b ≠ "" then b else "unknown"

/-- `analyzeHdf5Info` (utils.ts:742-763).  The body is a mock: it takes the
(mocked) file stats and stamps the result with the wall-clock instant
`new Date().toISOString()`, passed here explicitly as `now`.  The `try` body
contains no throwing operation, so the function always resolves. -/
def analyzeHdf5Info (filePath : String) (now : String) :
    Except String RustFileInfo :=
  let stats := getFileStats filePath
  .ok
    { name := fileNameOf filePath
      path := filePath
      size_mb := stats.size / (1024 * 1024)
      modified := now
      accessible := true
      groups_count := 5
      datasets_count := 15
      error := none }

/-- The constant tree literal returned by `analyzeHdf5Structure`
(utils.ts:775-796). -/
def mockStructureRoot : RustTreeNode :=
  .mk "root" "/" "group"
    [ .mk "Geometry" "/Geometry" "group" [] [] none none
    , .mk "Results" "/Results" "group" [] [] none none ]
    [] none none

/-- `analyzeHdf5Structure` (utils.ts:765-804): a mock returning a constant
structure for every file path. -/
def analyzeHdf5Structure (filePath : String) : Except String RustFileStructure :=
  .ok
    { file_path := filePath
      root := mockStructureRoot
      total_groups := 5
      total_datasets := 15
      error := none }

/-- `listHdf5Datasets` (utils.ts:806-823): a mock returning a constant list of
dataset paths. -/
def listHdf5Datasets (_filePath : String) : Except String (List String) :=
  .ok
    [ "/Geometry/2D Flow Areas/Area 2D/Cells Center Coordinate"
    , "/Results/2D/MaxWSE"
    , "/Results/2D/Velocity"
    , "/Plan Data/Plan Information"
    , "/Event Conditions/Unsteady" ]

/-- `extractHecRasData` (utils.ts:825-856): a mock returning constant HEC-RAS
data for every file path. -/
def extractHecRasData (filePath : String) : Except String RustHecRasData :=
  .ok
    { file := filePath
      geometry_data :=
        [ ("/Geometry/2D Flow Areas/Area 2D/Cells Center Coordinate",
           [1.0, 2.0, 3.0, 4.0, 5.0]) ]
      results_data :=
        [ ("/Results/2D/MaxWSE", [10.5, 11.2, 9.8, 12.1, 10.9]) ]
      metadata :=
        [ ("File Type", "HEC-RAS Plan File"), ("Version", "6.3.1") ]
      extraction_summary :=
        [ ("geometry_datasets", 1), ("results_datasets", 1) ] }

/-- The constant `mockData` array of `readHdf5DatasetSample` (utils.ts:868). -/
def mockData : List ℚ :=
  [10.5, 11.2, 9.8, 12.1, 10.9, 11.5, 10.3, 12.8, 9.5, 11.8]

/-- `readHdf5DatasetSample` (utils.ts:858-874): a mock that ignores both paths
and returns `mockData.slice(0, maxElements)`. -/
def readHdf5DatasetSample (_filePath _datasetPath : String)
    (maxElements : ℕ) : Except String (List ℚ) :=
  .ok (mockData.take maxElements)

/-!
Tree measurements and invariants over `RustTreeNode`, used to state the
claims about `analyzeHdf5Structure`'s result.
-/

mutual
/-- Number of nodes in the tree rooted at `n` (the node itself included). -/
def nodeTotal : RustTreeNode → ℕ
  | .mk _ _ _ c _ _ _ => 1 + listTotal c
/-- Number of nodes in a forest. -/
def listTotal : List RustTreeNode → ℕ
  | [] => 0
  | n :: ns => nodeTotal n + listTotal ns
end

/-- Number of TreeNodes reachable from `n` other than `n` itself. -/
def descendantCount (n : RustTreeNode) : ℕ :=
  listTotal n.children

/-- The path a child named `name` must carry under a parent at `parentPath`
when paths are the slash-delimited concatenation of ancestor names. -/
def joinChildPath (parentPath name : String) : String :=
  if parentPath = "/" then "/" ++ name else parentPath ++ "/" ++ name

mutual
/-- Every dataset node in the tree rooted at `n` has no children, and every
child's `path` extends its parent's `path` by the child's `name`. -/
def treeOkB : RustTreeNode → Bool
  | .mk _ p t c _ _ _ => (t != "dataset" || c.isEmpty) && childrenOkB p c
/-- `treeOkB` over a forest of children of a node at `parentPath`. -/
def childrenOkB (parentPath : String) : List RustTreeNode → Bool
  | [] => true
  | c :: rest =>
      (c.path == joinChildPath parentPath c.name) && treeOkB c &&
        childrenOkB parentPath rest
end

/-- The tree invariant of the spec: root path is `"/"`, every path is the
slash-delimited concatenation of ancestor names, datasets are childless. -/
def treeInvariantB (root : RustTreeNode) : Bool :=
  (root.path == "/") && treeOkB root

/-!
Embedding of the CLI front-end `main` of `src/src-tauri/hdf5_analyzer.rs.bak`.
The five operations it dispatches to live in the `eFlow_lib::hdf5_analyzer`
crate, which is not part of the provided sources; each returns
`anyhow::Result<()>`, modelled as `Except String Unit` and supplied as a
parameter record, since the usage-handling branches under scrutiny never
invoke them.  `main` itself returns `anyhow::Result<()>`; the process exit
code is 0 when it returns `Ok(())` and 1 when it returns `Err(_)`.
-/

/-- The five operations `main` dispatches to (hdf5_analyzer.rs.bak:24-66),
supplied as parameters since their implementation crate is absent. -/
structure CliOps where
  analyze_file_info : String → Except String Unit
  analyze_file_structure : String → Except String Unit
  list_datasets : String → Except String Unit
  analyze_hecras_data : String → Except String Unit
  read_dataset_sample : String → String → ℕ → Except String Unit

/-- Rust `s.parse::<usize>()` (hdf5_analyzer.rs.bak:62): an optional leading
`+` followed by one or more ASCII digits, the value fitting in 64 bits;
anything else is a parse error (`none`). -/
def parseUsize (s : String) : Option ℕ :=
  let ds := match s.data with
    | '+' :: rest => rest
    | cs => cs
  if ds = [] then none
  else if ds.all Char.isDigit then
    let v := ds.foldl (fun a c => a * 10 + (c.toNat - 48)) 0
    if v < 2 ^ 64 then some v else none
  else none

/-- The `max_elements` computation of the `sample` subcommand
(hdf5_analyzer.rs.bak:61-65): `if args.len() > 4 {
args[4].parse().unwrap_or(10) } else { 10 }`. -/
def sampleMaxElements (args : List String) : ℕ :=
  if 4 < args.length then (parseUsize (args.getD 4 "")).getD 10 else 10

/-- Exit code of a Rust `main` returning this `anyhow::Result<()>`. -/
def exitOf : Except String Unit → ℕ
  | .ok _ => 0
  | .error _ => 1

/-- Process exit code of `main` (hdf5_analyzer.rs.bak:6-78) on argument
vector `args` (`args[0]` is the program name).  Every usage-handling branch
ends in `return Ok(())`; only a failing operation propagates an `Err` via
`?`. -/
def mainExitCode (ops : CliOps) (args : List String) : ℕ :=
  if args.length < 2 then 0
  else
    let command := args.getD 1 ""
    if command = "info" then
      if args.length < 3 then 0
      else exitOf (ops.analyze_file_info (args.getD 2 ""))
    else if command = "structure" then
      if args.length < 3 then 0
      else exitOf (ops.analyze_file_structure (args.getD 2 ""))
    else if command = "datasets" then
      if args.length < 3 then 0
      else exitOf (ops.list_datasets (args.getD 2 ""))
    else if command = "hecras" then
      if args.length < 3 then 0
      else exitOf (ops.analyze_hecras_data (args.getD 2 ""))
    else if command = "sample" then
      if args.length < 4 then 0
      else
        exitOf (ops.read_dataset_sample (args.getD 2 "") (args.getD 3 "")
          (sampleMaxElements args))
    else if command = "help" ∨ command = "--help" ∨ command = "-h" then 0
    else 0

/-- Invalid usage in the claim's sense: an unknown subcommand, or a
subcommand invoked with missing required arguments. -/
def invalidUsageB (args : List String) : Bool :=
  2 ≤ args.length &&
    (let command := args.getD 1 ""
     if command = "info" ∨ command = "structure" ∨ command = "datasets" ∨
        command = "hecras" then
       args.length < 3
     else if command = "sample" then args.length < 4
     else !(command = "help" ∨ command = "--help" ∨ command = "-h"))

/-- Operations that all succeed. -/
def okOps : CliOps :=
  { analyze_file_info := fun _ => .ok ()
    analyze_file_structure := fun _ => .ok ()
    list_datasets := fun _ => .ok ()
    analyze_hecras_data := fun _ => .ok ()
    read_dataset_sample := fun _ _ _ => .ok () }

/-- Operations that all fail. -/
def failOps : CliOps :=
  { analyze_file_info := fun _ => .error "fail"
    analyze_file_structure := fun _ => .error "fail"
    list_datasets := fun _ => .error "fail"
    analyze_hecras_data := fun _ => .error "fail"
    read_dataset_sample := fun _ _ _ => .error "fail" }

/-!
Claim theorems.
-/

/-- C1: for every file path, dataset path and maximum element count `n`, the
sample operation returns a sequence of at most `n` elements, and exactly
`min n (length of the dataset's flattened representation)` elements, the
dataset's flattened representation in the committed code being the constant
`mockData` array (of length 10). -/
theorem sample_length_bounded (filePath datasetPath : String) (n : ℕ) :
    (readHdf5DatasetSample filePath datasetPath n).map List.length =
      .ok (min n mockData.length) ∧
    ∀ l, readHdf5DatasetSample filePath datasetPath n = .ok l →
      l.length ≤ n := by
  refine ⟨by simp [readHdf5DatasetSample, Except.map, List.length_take], ?_⟩
  intro l hl
  simp only [readHdf5DatasetSample, Except.ok.injEq] at hl
  subst hl
  simp [List.length_take_le]

/-- Witness for C1 at `n = 3`. -/
theorem sample_length_bounded_witness :
    (readHdf5DatasetSample "f.hdf" "/Results/2D/MaxWSE" 3).map List.length =
      .ok (min 3 mockData.length) ∧
    (mockData.take 3).length ≤ 3 :=
  ⟨(sample_length_bounded "f.hdf" "/Results/2D/MaxWSE" 3).1,
   (sample_length_bounded "f.hdf" "/Results/2D/MaxWSE" 3).2 _ rfl⟩

/-- C2 (code evaluated at the failing input): for the file `"test.hdf"` the
structure operation reports `total_groups + total_datasets = 20`, while the
tree it returns has exactly 2 non-root reachable TreeNodes, and `20 ≠ 2`; the
committed mock hard-codes counts that do not match its own hard-coded tree. -/
theorem structure_totals_mismatch :
    (analyzeHdf5Structure "test.hdf").map
        (fun s => s.total_groups + s.total_datasets) = .ok 20 ∧
    (analyzeHdf5Structure "test.hdf").map
        (fun s => descendantCount s.root) = .ok 2 ∧
    (20 : ℚ) ≠ (2 : ℕ) := by
  refine ⟨by norm_num [analyzeHdf5Structure, Except.map], ?_, by norm_num⟩
  simp [analyzeHdf5Structure, Except.map, descendantCount, mockStructureRoot,
    RustTreeNode.children, listTotal, nodeTotal]

/-- C3 (code evaluated at the failing input): two invocations of the info
operation on the same unmodified file `"a.hdf"`, one millisecond apart,
return different results, because the code stamps `modified` with the
wall-clock instant of the call rather than the file's own timestamp. -/
theorem info_not_idempotent :
    analyzeHdf5Info "a.hdf" "2024-01-01T00:00:00.000Z" ≠
      analyzeHdf5Info "a.hdf" "2024-01-01T00:00:00.001Z" := by
  simp [analyzeHdf5Info, fileNameOf, getFileStats]

/-- C4 (code evaluated at the failing input): for the nonexistent path
`"/no/such/file.hdf"` the info operation still reports `accessible = true`
and no error, because the mocked `getFileStats` never consults the file
system. -/
theorem info_missing_file_reported_accessible :
    (analyzeHdf5Info "/no/such/file.hdf" "2024-01-01T00:00:00.000Z").map
      (fun i => (i.accessible, i.error)) = .ok (true, none) := rfl

/-- C5 (code evaluated at the failing input): `"/Geometry"` is a Group (not a
Dataset) in the tree the structure operation returns for
`"model.p01.hdf"`, yet the sample operation on that same path succeeds with
the full 10-element mock array instead of failing with
`DatasetNotFoundError`. -/
theorem sample_on_group_returns_data :
    (analyzeHdf5Structure "model.p01.hdf").map
        (fun s => s.root.children.map fun c => (c.path, c.node_type)) =
      .ok [("/Geometry", "group"), ("/Results", "group")] ∧
    readHdf5DatasetSample "model.p01.hdf" "/Geometry" 10 =
      .ok [10.5, 11.2, 9.8, 12.1, 10.9, 11.5, 10.3, 12.8, 9.5, 11.8] := by
  constructor
  · simp [analyzeHdf5Structure, Except.map, mockStructureRoot,
      RustTreeNode.children, RustTreeNode.path, RustTreeNode.node_type]
  · rfl

/-- C6: each of the five façade operations resolves with a structured success
value on every input; none rejects (throws across the boundary), and the
bodies contain no panic or process exit. -/
theorem facade_operations_never_throw :
    (∀ p t, ∃ v, analyzeHdf5Info p t = .ok v) ∧
    (∀ p, ∃ v, analyzeHdf5Structure p = .ok v) ∧
    (∀ p, ∃ v, listHdf5Datasets p = .ok v) ∧
    (∀ p, ∃ v, extractHecRasData p = .ok v) ∧
    (∀ p d n, ∃ v, readHdf5DatasetSample p d n = .ok v) :=
  ⟨fun _ _ => ⟨_, rfl⟩, fun _ => ⟨_, rfl⟩, fun _ => ⟨_, rfl⟩,
   fun _ => ⟨_, rfl⟩, fun _ _ _ => ⟨_, rfl⟩⟩

/-- C7: for every file path, the tree returned by the structure operation has
root path `"/"`, every node's path is the slash-delimited concatenation of
its ancestors' names, and every dataset node has an empty children list. -/
theorem structure_tree_invariant (filePath : String) :
    (analyzeHdf5Structure filePath).map (fun s => treeInvariantB s.root) =
      .ok true := by
  simp [analyzeHdf5Structure, Except.map, treeInvariantB, treeOkB,
    childrenOkB, mockStructureRoot, RustTreeNode.path, RustTreeNode.name,
    joinChildPath]

/-- C8 counterexample: invoking the CLI with the unknown subcommand
`"frobnicate"` exits with code 0 (even when every underlying operation would
fail), contradicting the claim that every invalid usage exits non-zero. -/
theorem cli_unknown_command_exits_zero :
    mainExitCode failOps ["hdf5_analyzer", "frobnicate"] = 0 := rfl

/-- C8 (amended): the CLI exits 0 on success, and it also exits 0 on every
invalid usage (unknown subcommand, or missing required arguments), printing a
message instead; a non-zero exit occurs only when an invoked operation
fails. -/
theorem cli_exit_codes :
    (∀ args, mainExitCode okOps args = 0) ∧
    (∀ ops args, invalidUsageB args = true → mainExitCode ops args = 0) := by
  constructor
  · intro args
    simp [mainExitCode, okOps, exitOf]
  · intro ops args h
    simp [invalidUsageB] at h
    obtain ⟨h1, h2⟩ := h
    simp only [mainExitCode]
    split
    · rfl
    · split_ifs with c1 c2 c3 c4 c5 c6 <;> simp_all

/-- Witness for C8: `["hdf5_analyzer", "datasets"]` (missing the required
file argument) is an invalid usage, and the CLI exits 0 on it even with every
operation failing. -/
theorem cli_exit_codes_witness :
    invalidUsageB ["hdf5_analyzer", "datasets"] = true ∧
    mainExitCode failOps ["hdf5_analyzer", "datasets"] = 0 :=
  ⟨by decide, cli_exit_codes.2 failOps ["hdf5_analyzer", "datasets"] (by decide)⟩

/-- C9: the sample operation's result does not depend on the file path or the
dataset path — only on the element count. -/
theorem sample_path_independent (p1 d1 p2 d2 : String) (n : ℕ) :
    readHdf5DatasetSample p1 d1 n = readHdf5DatasetSample p2 d2 n := rfl

/-- C10: in the CLI `sample` subcommand, `max_elements` is 10 whenever the
fifth argument is absent or fails to parse as an unsigned integer, and with
the element-count argument absent the sample operation is invoked with
exactly 10. -/
theorem sample_max_elements_default :
    (∀ args : List String, args.length ≤ 4 → sampleMaxElements args = 10) ∧
    (∀ args : List String, parseUsize (args.getD 4 "") = none →
      sampleMaxElements args = 10) ∧
    (∀ ops f d, mainExitCode ops ["hdf5_analyzer", "sample", f, d] =
      exitOf (ops.read_dataset_sample f d 10)) := by
  refine ⟨?_, ?_, ?_⟩
  · intro args h
    simp [sampleMaxElements, Nat.not_lt.mpr h]
  · intro args h
    unfold sampleMaxElements
    split_ifs with h4
    · rw [h]; rfl
    · rfl
  · intro ops f d
    rfl

/-- Witness for C10: a four-argument invocation (element count absent) and a
five-argument invocation whose count `"12abc"` fails to parse both yield a
`max_elements` of 10. -/
theorem sample_max_elements_default_witness :
    sampleMaxElements ["hdf5_analyzer", "sample", "f.hdf", "/ds"] = 10 ∧
    parseUsize "12abc" = none ∧
    sampleMaxElements ["hdf5_analyzer", "sample", "f.hdf", "/ds", "12abc"] = 10 :=
  ⟨sample_max_elements_default.1 _ (by decide), by decide,
   sample_max_elements_default.2.1 _ (by decide)⟩
